import Mathlib

set_option autoImplicit false

namespace RobinStocks

/-- JSON-like values, the universe of parsed response bodies and of the
Python values flowing through `helper.py` and `authentication.py`.
`null` is Python `None`; `obj` is a `dict` with string keys in insertion
order (the only kind of dict produced by `res.json()`). -/
inductive JVal where
  | null
  | bool (b : Bool)
  | num (n : Int)
  | str (s : String)
  | list (xs : List JVal)
  | obj (fields : List (String × JVal))
deriving Repr

/-- Python exceptions that the embedded code can raise or catch. -/
inductive PyErr where
  | httpError          -- requests.exceptions.HTTPError (raise_for_status on 4xx/5xx)
  | attributeError
  | connectionError    -- transport-level requests exception (DNS, refused, timeout)
  | typeError
  | keyError
  | indexError
  | valueError         -- res.json() on a non-JSON body
  | eofError           -- input() at end of input, pickle.load on an empty file
  | fileNotFound
  | exc (msg : String)       -- plain `raise Exception(msg)`
  | authError (msg : String) -- tda AuthenticationError(msg)
deriving Repr, DecidableEq

/-- Result of running a piece of Python: a value, or an uncaught exception. -/
inductive PyResult (α : Type) where
  | ok (v : α)
  | raise (e : PyErr)
deriving Repr

/-- Messages written to the configured output sink (`print(..., file=rg.get_output())`
and the logger calls), abstracted to tags. -/
inductive LogMsg where
  | printedErr (e : PyErr)            -- print of a caught exception message
  | pagesWarning                      -- "Additional pages exist but could not be loaded."
  | postError                         -- "Error in request_post: ..."
  | deleteError                       -- "Error in request_delete: ..."
  | keyNotFound (k : String)          -- filter_data: "... is not a key in the dictionary."
  | cacheExpired                      -- "Cached session expired. Logging in again."
  | incorrectMfa                      -- "Incorrect MFA code. Please try again."
  | incorrectChallenge (remaining : String) -- "Incorrect code. N attempts remaining."
deriving Repr, DecidableEq

/-- `fs[k]` lookup on an insertion-ordered dict, first binding wins. -/
def dictLookup (fs : List (String × JVal)) (k : String) : Option JVal :=
  match fs with
  | [] => none
  | (k2, v) :: rest => if k2 = k then some v else dictLookup rest k

/-- Python `d.get(k, dflt)`. -/
def dictGet (fs : List (String × JVal)) (k : String) (dflt : JVal) : JVal :=
  (dictLookup fs k).getD dflt

/-- Python `d[k] = v`: replace in place if the key exists, else append. -/
def dictSet (fs : List (String × JVal)) (k : String) (v : JVal) : List (String × JVal) :=
  match fs with
  | [] => [(k, v)]
  | (k2, w) :: rest => if k2 = k then (k2, v) :: rest else (k2, w) :: dictSet rest k v

/-- Python truthiness of a `JVal`. -/
def pyTruthy (v : JVal) : Bool :=
  match v with
  | .null => false
  | .bool b => b
  | .num n => decide (n ≠ 0)
  | .str s => decide (s ≠ "")
  | .list xs => !xs.isEmpty
  | .obj fs => !fs.isEmpty

/-- Whether `needle` occurs as a substring of `hay` (Python `needle in hay` on strings). -/
def containsSubstring (needle hay : String) : Bool :=
  decide ((hay.splitOn needle).length > 1)

/-- Whether `x` is the string value `k` (Python `x == k` for a string `k`;
comparison with a non-string Python value is `False`, never an error). -/
def eqStrVal (x : JVal) (k : String) : Bool :=
  match x with
  | .str s => s == k
  | _ => false

/-- Python `k in v` for a string `k`: key test on dicts, element test on lists,
substring test on strings, `TypeError` otherwise. -/
def pyContainsD (v : JVal) (k : String) : PyResult Bool :=
  match v with
  | .obj fs => .ok ((dictLookup fs k).isSome)
  | .list xs => .ok (xs.any (fun x => eqStrVal x k))
  | .str s => .ok (containsSubstring k s)
  | _ => .raise .typeError

/-- Python `v[k]` for a string key `k`: dict lookup (`KeyError` when absent),
`TypeError` on every non-dict. -/
def pyGetKey (v : JVal) (k : String) : PyResult JVal :=
  match v with
  | .obj fs =>
      match dictLookup fs k with
      | some w => .ok w
      | none => .raise .keyError
  | _ => .raise .typeError

/-- Python `v[0]`: head of a list (`IndexError` when empty), first character of a
string, `KeyError` on a string-keyed dict, `TypeError` otherwise. -/
def pyIndexZero (v : JVal) : PyResult JVal :=
  match v with
  | .list [] => .raise .indexError
  | .list (x :: _) => .ok x
  | .str s => if s = "" then .raise .indexError else .ok (.str (String.singleton s.front))
  | .obj _ => .raise .keyError
  | _ => .raise .typeError

/-- Python `str(v)` / f-string interpolation of `v`. The claims only ever
render atoms; composite values get an abbreviated rendering. -/
def pyStr (v : JVal) : String :=
  match v with
  | .str s => s
  | .num n => toString n
  | .bool b => if b then "True" else "False"
  | .null => "None"
  | .list _ => "list"
  | .obj _ => "dict"

/-- Environment's answer to one `session.get(url, ...)` followed by
`raise_for_status()` and (when requested) `res.json()`. The query payload of
the source function is folded into the environment's view of the URL. -/
inductive GetOutcome where
  | ok (body : JVal)   -- 2xx and the body parses to `body`
  | httpError          -- raise_for_status raises HTTPError (4xx/5xx)
  | attrError          -- AttributeError out of the session call
  | connectionError    -- transport error (requests ConnectionError/Timeout)
  | badJson            -- 2xx but res.json() raises ValueError
deriving Repr

/-- Value returned by `request_get`/`request_post`: parsed data, or the raw
`Response` object (when `jsonify_data=False` and the call succeeded). -/
inductive GetResult where
  | data (v : JVal)
  | response
deriving Repr

/-- Output of a pipeline call: what was printed to the sink, and the returned
value or uncaught exception. -/
structure ReqOut where
  log : List LogMsg
  result : PyResult GetResult
deriving Repr

/-- The `while 'next' in data and data['next']:` loop of `request_get`'s
pagination branch, where `data` is the value of `body.get('results', [])`.

Faithful consequences of the source:
* when `data` is a list, `'next' in data` is an element-membership test; if the
  literal string `"next"` is an element the loop header then evaluates
  `data['next']`, a string index into a list, raising `TypeError` outside any
  `try`; otherwise the loop never runs;
* when `data` is a dict with a truthy `'next'` entry, the loop body is entered
  once and always breaks after printing the warning: whatever the continuation
  `session.get` does, the final `data.extend(...)` is an attribute access on a
  dict, so some exception is always caught by the bare `except`. The
  continuation outcome therefore cannot influence the returned value;
* when `data` is a string, `'next' in data` is a substring test and a hit makes
  `data['next']` raise `TypeError`;
* `'next' in data` itself raises `TypeError` on numbers, booleans and `None`. -/
def paginationFollow (data : JVal) : ReqOut :=
  match data with
  | .list xs =>
      if xs.any (fun x => eqStrVal x "next") then ⟨[], .raise .typeError⟩
      else ⟨[], .ok (.data (.list xs))⟩
  | .obj fs =>
      match dictLookup fs "next" with
      | some v =>
          if pyTruthy v then ⟨[.pagesWarning], .ok (.data (.obj fs))⟩
          else ⟨[], .ok (.data (.obj fs))⟩
      | none => ⟨[], .ok (.data (.obj fs))⟩
  | .str s =>
      if containsSubstring "next" s then ⟨[], .raise .typeError⟩
      else ⟨[], .ok (.data (.str s))⟩
  | _ => ⟨[], .raise .typeError⟩

/-- Embedding of `helper.request_get`. `net` is the environment's response to
each GET by URL. The `except` clause catches only `HTTPError` and
`AttributeError`; transport errors and `res.json()` failures propagate. The
shape post-processing (`data.get(...)`) runs outside the `try`, so a non-dict
body raises `AttributeError` for the `results`, `pagination` and `indexzero`
shapes. -/
def request_get (net : String → GetOutcome) (url : String)
    (dataType : String) (jsonify_data : Bool) : ReqOut :=
  let dflt : JVal := if dataType = "results" ∨ dataType = "pagination" then .list [.null] else .null
  match net url with
  | .connectionError => ⟨[], .raise .connectionError⟩
  | .httpError => ⟨[.printedErr .httpError], .ok (.data dflt)⟩
  | .attrError => ⟨[.printedErr .attributeError], .ok (.data dflt)⟩
  | .badJson =>
      if jsonify_data then ⟨[], .raise .valueError⟩ else ⟨[], .ok .response⟩
  | .ok body =>
      if !jsonify_data then ⟨[], .ok .response⟩
      else if dataType = "results" then
        match body with
        | .obj fs => ⟨[], .ok (.data (dictGet fs "results" (.list [.null])))⟩
        | _ => ⟨[], .raise .attributeError⟩
      else if dataType = "pagination" then
        match body with
        | .obj fs => paginationFollow (dictGet fs "results" (.list []))
        | _ => ⟨[], .raise .attributeError⟩
      else if dataType = "indexzero" then
        match body with
        | .obj fs =>
            match pyIndexZero (dictGet fs "results" (.list [.obj []])) with
            | .ok v => ⟨[], .ok (.data v)⟩
            | .raise e => ⟨[], .raise e⟩
        | _ => ⟨[], .raise .attributeError⟩
      else ⟨[], .ok (.data body)⟩

/-- The session's header map (`rg.session.headers`): `none` means the key is
absent, `some v` the stored value (requests stores Python `None` as a value,
modelled by `some JVal.null`). -/
def Headers : Type := String → Option JVal

/-- Assignment `headers[k] = v`. -/
def setHeader (h : Headers) (k : String) (v : JVal) : Headers :=
  fun k2 => if k2 = k then some v else h k2

/-- The session's default `Content-Type` (set at session creation and restored
by `request_post`'s `finally`). -/
def formDefault : String := "application/x-www-form-urlencoded; charset=utf-8"

/-- Environment's answer to one `session.post(...)` with `raise_for_status()`
and `res.json()`. -/
inductive PostOutcome where
  | ok (body : JVal)   -- 2xx and the body parses to `body`
  | httpError          -- raise_for_status raises HTTPError
  | connectionError    -- transport error
  | badJson            -- 2xx but res.json() raises ValueError
deriving Repr

structure PostOut where
  headers : Headers
  log : List LogMsg
  result : PyResult GetResult

/-- Embedding of `helper.request_post`. The `except Exception` clause swallows
every failure (HTTP status, transport, JSON decode) into a printed message and
a `None` result; the `finally` clause unconditionally resets `Content-Type` to
the form-encoded default. The `timeout` argument of the source only shapes the
transport outcome, which the environment already supplies. -/
def request_post (outcome : PostOutcome) (json : Bool) (jsonify_data : Bool)
    (h : Headers) : PostOut :=
  -- try: optionally swap to JSON mode, then POST
  let h1 := if json then setHeader h "Content-Type" (.str "application/json") else h
  let lr : List LogMsg × PyResult GetResult :=
    match outcome with
    | .ok body => ([], if jsonify_data then .ok (.data body) else .ok .response)
    | _ => ([.postError], .ok (.data .null))
  -- finally: restore the default Content-Type
  { headers := setHeader h1 "Content-Type" (.str formDefault), log := lr.1, result := lr.2 }

/-- Environment's answer to one `session.delete(...)` with `raise_for_status()`. -/
inductive DeleteOutcome where
  | ok
  | httpError
  | connectionError
deriving Repr

/-- Embedding of `helper.request_delete`: `except Exception` swallows every
failure into a printed message and a `None` result. -/
def request_delete (outcome : DeleteOutcome) : List LogMsg × PyResult GetResult :=
  match outcome with
  | .ok => ([], .ok .response)
  | _ => ([.deleteError], .ok (.data .null))

/-- The list comprehension `[x[info] for x in data]`: first raised exception
propagates. -/
def mapGetKey (k : String) : List JVal → PyResult (List JVal)
  | [] => .ok []
  | x :: xs =>
      match pyGetKey x k with
      | .raise e => .raise e
      | .ok v =>
          match mapGetKey k xs with
          | .raise e => .raise e
          | .ok vs => .ok (v :: vs)

/-- Embedding of `helper.filter_data`. Mirrors the source's order of checks:
`data is None`, then `data == [None]`, then the isinstance dispatch picking the
representative element, then the `info` projection with its log-and-return
fallbacks. -/
def filter_data (data : JVal) (info : Option String) : List LogMsg × PyResult JVal :=
  match data with
  | .null => ([], .ok .null)
  | .list [.null] => ([], .ok (.list []))
  | .list [] => ([], .ok (.list []))
  | .list (x :: xs) =>
      match info with
      | some k =>
          match pyContainsD x k with
          | .raise e => ([], .raise e)
          | .ok true =>
              match mapGetKey k (x :: xs) with
              | .ok vs => ([], .ok (.list vs))
              | .raise e => ([], .raise e)
          | .ok false => ([.keyNotFound k], .ok (.list []))
      | none => ([], .ok (.list (x :: xs)))
  | .obj fs =>
      match info with
      | some k =>
          if (dictLookup fs k).isSome then
            match pyGetKey (.obj fs) k with
            | .ok v => ([], .ok v)
            | .raise e => ([], .raise e)
          else ([.keyNotFound k], .ok .null)
      | none => ([], .ok (.obj fs))
  | v => ([], .ok v)

/-- Process-wide authentication state: the shared session's headers and
logged-in flag (`robinhood_globals`), the module-level `_SESSION_DATA` dict,
and the contents of the on-disk credential cache file.
`cache_file = none` means the file does not exist; `some none` that it exists
but `pickle.load` fails (`_load_cached_session` returns `None`);
`some (some v)` that it unpickles to `v`. -/
structure RHState where
  headers : Headers
  logged_in : Bool
  session_data : JVal
  cache_file : Option (Option JVal)

/-- `helper.update_session`: sets one header on the shared session. -/
def update_session (st : RHState) (k : String) (v : JVal) : RHState :=
  { st with headers := setHeader st.headers k v }

/-- Outcome of one resubmission POST inside `_handle_mfa`, which is issued with
`jsonify_data=False` and inspected through `res.status_code == 200`. -/
inductive MfaOutcome where
  | ok200 (body : JVal)  -- status 200, res.json() parses to body
  | ok200badJson         -- status 200, res.json() raises ValueError
  | okOther              -- 2xx but not 200: the loop treats the code as incorrect
  | failed               -- request_post swallowed an exception and returned None
deriving Repr

/-- Environment of one `login()` call: the outcome of each network interaction
and the interactive input stream, indexed in the order the source consumes
them. -/
structure LoginEnv where
  probe : GetOutcome                  -- GET positions_url verifying the cached token
  login_post : PostOutcome            -- initial POST to login_url
  mfa_posts : Nat → MfaOutcome        -- per-attempt resubmission in _handle_mfa
  challenge_posts : Nat → PostOutcome -- per-attempt respond_to_challenge POST
  final_post : PostOutcome            -- POST to login_url after challenge success
  device_token : String               -- value of generate_device_token()
  inputs : List String                -- interactive inputs (input()/getpass)

/-- Result of an authentication operation: final state, sink output, number of
interactive prompts answered, and the returned value or uncaught exception. -/
structure AuthOut where
  state : RHState
  log : List LogMsg
  prompts : Nat
  result : PyResult JVal

/-- `urls.py` is not among the sources; the URLs are opaque strings here. -/
def positions_url : String := "positions_url"

/-- Embedding of `authentication._handle_mfa`: prompt, resubmit with the code,
return `res.json()` on status 200, otherwise print and loop. A `None` result
from a failed `request_post` makes `res.status_code` raise `AttributeError`;
an exhausted input stream makes `input()` raise `EOFError`. Each resubmission
goes through `request_post` (form mode), whose `finally` resets the session's
`Content-Type`. -/
def handle_mfa (posts : Nat → MfaOutcome) (st : RHState) :
    List String → Nat → AuthOut
  | [], _ => ⟨st, [], 0, .raise .eofError⟩
  | _ :: rest, k =>
      let st2 := update_session st "Content-Type" (.str formDefault)
      match posts k with
      | .ok200 body => ⟨st2, [], 1, .ok body⟩
      | .ok200badJson => ⟨st2, [], 1, .raise .valueError⟩
      | .failed => ⟨st2, [.postError], 1, .raise .attributeError⟩
      | .okOther =>
          let r := handle_mfa posts st2 rest (k + 1)
          ⟨r.state, .incorrectMfa :: r.log, r.prompts + 1, r.result⟩

/-- Value returned by a `request_post(url, payload)` call in the default
jsonify mode: the parsed body on success, `None` when the `except` clause
swallowed a failure. -/
def postValue (o : PostOutcome) : JVal :=
  match o with
  | .ok b => b
  | _ => .null

/-- Python `v <= 0`: numeric comparison; booleans coerce (False = 0, True = 1);
anything else raises `TypeError`. -/
def pyLeZero (v : JVal) : PyResult Bool :=
  match v with
  | .num n => .ok (decide (n ≤ 0))
  | .bool b => .ok (!b)
  | _ => .raise .typeError

/-- Embedding of `authentication._handle_challenge`: prompt, POST the code to
the challenge endpoint, and
* on a response without a `challenge` key: attach the
  `X-ROBINHOOD-CHALLENGE-RESPONSE-ID` header and resubmit the original login
  payload;
* on a failed attempt whose `remaining_attempts` is `<= 0`: raise
  "Too many failed challenge attempts";
* otherwise print the remaining count and loop.
A failed challenge POST returns `None`, making `'challenge' not in res` raise
`TypeError`; an exhausted input stream raises `EOFError`. -/
def handle_challenge (posts : Nat → PostOutcome) (final : PostOutcome)
    (challenge_id : JVal) (st : RHState) : List String → Nat → AuthOut
  | [], _ => ⟨st, [], 0, .raise .eofError⟩
  | _ :: rest, k =>
      let post1 := request_post (posts k) false true st.headers
      let st2 : RHState := { st with headers := post1.headers }
      let res : JVal := postValue (posts k)
      match pyContainsD res "challenge" with
      | .raise e => ⟨st2, post1.log, 1, .raise e⟩
      | .ok false =>
          let st3 := update_session st2 "X-ROBINHOOD-CHALLENGE-RESPONSE-ID" challenge_id
          let post2 := request_post final false true st3.headers
          let st4 : RHState := { st3 with headers := post2.headers }
          ⟨st4, post1.log ++ post2.log, 1, .ok (postValue final)⟩
      | .ok true =>
          match pyGetKey res "challenge" with
          | .raise e => ⟨st2, post1.log, 1, .raise e⟩
          | .ok chal =>
              match pyGetKey chal "remaining_attempts" with
              | .raise e => ⟨st2, post1.log, 1, .raise e⟩
              | .ok remaining =>
                  match pyLeZero remaining with
                  | .raise e => ⟨st2, post1.log, 1, .raise e⟩
                  | .ok true =>
                      ⟨st2, post1.log, 1, .raise (.exc "Too many failed challenge attempts")⟩
                  | .ok false =>
                      let r := handle_challenge posts final challenge_id st2 rest (k + 1)
                      ⟨r.state, post1.log ++ [.incorrectChallenge (pyStr remaining)] ++ r.log,
                        r.prompts + 1, r.result⟩

/-- Python falsiness of an optional string argument (`if not username:`). -/
def optFalsy (o : Option String) : Bool :=
  match o with
  | none => true
  | some s => s == ""

/-- The fall-through part of `login()` (payload construction through token
persistence), entered when there is no usable cached session. The payload
fields (client id, scope, expiry, challenge type, device token, credentials)
only shape the POST outcomes, which the environment supplies directly. -/
def loginFull (env : LoginEnv) (st : RHState)
    (username password mfa_code : Option String)
    (store_session : Bool) : AuthOut :=
  let _ := mfa_code  -- an mfa_code argument only adds a payload field
  -- interactive collection of missing credentials
  let wanted := (if optFalsy username then 1 else 0) + (if optFalsy password then 1 else 0)
  if env.inputs.length < wanted then ⟨st, [], env.inputs.length, .raise .eofError⟩
  else
    let rest := env.inputs.drop wanted
    -- data = request_post(login_url, payload)
    let post0 := request_post env.login_post false true st.headers
    let st1 : RHState := { st with headers := post0.headers }
    let data0 : JVal := postValue env.login_post
    if ¬ pyTruthy data0 then
      ⟨st1, post0.log, wanted, .raise (.exc "Error: Trouble connecting to Robinhood API. Check internet connection.")⟩
    else
      -- MFA / challenge resolution
      let branch : AuthOut :=
        match pyContainsD data0 "mfa_required" with
        | .raise e => ⟨st1, [], 0, .raise e⟩
        | .ok true => handle_mfa env.mfa_posts st1 rest 0
        | .ok false =>
            match pyContainsD data0 "challenge" with
            | .raise e => ⟨st1, [], 0, .raise e⟩
            | .ok true =>
                match pyGetKey data0 "challenge" with
                | .raise e => ⟨st1, [], 0, .raise e⟩
                | .ok chal =>
                    match pyGetKey chal "id" with
                    | .raise e => ⟨st1, [], 0, .raise e⟩
                    | .ok cid => handle_challenge env.challenge_posts env.final_post cid st1 rest 0
            | .ok false => ⟨st1, [], 0, .ok data0⟩
      match branch.result with
      | .raise e => ⟨branch.state, post0.log ++ branch.log, wanted + branch.prompts, .raise e⟩
      | .ok data =>
          let st2 := branch.state
          let fin : AuthOut :=
            match pyContainsD data "access_token" with
            | .raise e => ⟨st2, [], 0, .raise e⟩
            | .ok true =>
                -- _SESSION_DATA = {token_type, access_token, refresh_token, device_token, detail}
                match pyGetKey data "token_type" with
                | .raise e => ⟨st2, [], 0, .raise e⟩
                | .ok tt =>
                    match pyGetKey data "access_token" with
                    | .raise e => ⟨st2, [], 0, .raise e⟩
                    | .ok at2 =>
                        match pyGetKey data "refresh_token" with
                        | .raise e => ⟨st2, [], 0, .raise e⟩
                        | .ok rt =>
                            let sd : JVal := .obj [("token_type", tt), ("access_token", at2),
                              ("refresh_token", rt), ("device_token", .str env.device_token),
                              ("detail", .str "Logged in with new authentication code.")]
                            let st3 := update_session { st2 with session_data := sd }
                              "Authorization" (.str (pyStr tt ++ " " ++ pyStr at2))
                            let st4 : RHState := { st3 with logged_in := true }
                            let st5 : RHState :=
                              if store_session then { st4 with cache_file := some (some sd) } else st4
                            ⟨st5, [], 0, .ok sd⟩
            | .ok false =>
                match data with
                | .obj fs =>
                    ⟨st2, [], 0, .raise (.exc (pyStr (dictGet fs "detail" (.str "Unknown login error"))))⟩
                | _ => ⟨st2, [], 0, .raise .attributeError⟩
          ⟨fin.state, post0.log ++ branch.log ++ fin.log, wanted + branch.prompts + fin.prompts, fin.result⟩

/-- Embedding of `authentication.login`. The cached-session branch runs when
`store_session` is set and the cache file exists: it installs the cached bundle
and only falls through to `loginFull` when the liveness probe fails. The
f-string building the `Authorization` header evaluates
`_SESSION_DATA['token_type']` and `_SESSION_DATA['access_token']` after
`_SESSION_DATA` and the logged-in flag were already mutated. -/
def login (env : LoginEnv) (st : RHState)
    (username password mfa_code : Option String)
    (store_session : Bool) (pickle_name : String) : AuthOut :=
  let creds_file := "robinhood" ++ pickle_name ++ ".pickle"
  let cachedTry : Option JVal :=
    match store_session, st.cache_file with
    | true, some load =>
        match load with
        | some cs => if pyTruthy cs then some cs else none
        | none => none
    | _, _ => none
  match cachedTry with
  | some cs =>
      let stA : RHState := { st with session_data := cs, logged_in := true }
      match pyGetKey cs "token_type" with
      | .raise e => ⟨stA, [], 0, .raise e⟩
      | .ok tt =>
          match pyGetKey cs "access_token" with
          | .raise e => ⟨stA, [], 0, .raise e⟩
          | .ok at2 =>
              let stB := update_session stA "Authorization" (.str (pyStr tt ++ " " ++ pyStr at2))
              let probe := request_get (fun _ => env.probe) positions_url "pagination" false
              match probe.result with
              | .ok .response =>
                  -- a Response returned by request_get already passed raise_for_status
                  match cs with
                  | .obj fs =>
                      ⟨stB, probe.log, 0, .ok (.obj (dictSet fs "detail"
                        (.str ("Logged in using cached authentication in " ++ creds_file))))⟩
                  | _ => ⟨stB, probe.log, 0, .raise .typeError⟩
              | _ =>
                  -- res is the [None] sentinel (so raise_for_status raises
                  -- AttributeError) or request_get itself raised: either way the
                  -- except clause reverts the optimistic state and falls through
                  let stC := update_session { stB with logged_in := false } "Authorization" .null
                  let r := loginFull env stC username password mfa_code store_session
                  ⟨r.state, probe.log ++ [.cacheExpired] ++ r.log, r.prompts, r.result⟩
  | none =>
      let r := loginFull env st username password mfa_code store_session
      ⟨r.state, r.log, r.prompts, r.result⟩

/-- Embedding of `authentication.logout` together with its `login_required`
decorator: the wrapper raises when `_SESSION_DATA` is falsy, otherwise the body
clears `_SESSION_DATA`, sets the logged-in flag false and sets the
`Authorization` header to `None`. The on-disk cache file is not touched. -/
def logout (st : RHState) : RHState × PyResult JVal :=
  if pyTruthy st.session_data then
    (update_session { st with session_data := .obj [], logged_in := false } "Authorization" .null,
      .ok .null)
  else
    (st, .raise (.exc "You must be logged in to use this function"))

/-! ### TDA hardened encrypted-cache variant (`revisions/tda/authentication.py`) -/

/-- Contents of the tda credential pickle file: `empty` is a zero-byte file
(as produced by `Path.touch`), `stored v` a `pickle.dump`ed record. -/
inductive PickleFile where
  | empty
  | stored (v : JVal)
deriving Repr

/-- tda session state (headers and login flag of `tda.globals`). -/
structure TdaState where
  headers : Headers
  logged_in : Bool

/-- Environment of one tda `login(encryption_passcode)` call. `fs = none`
means the cache file has never been created (first-time setup never ran).
`decrypt` is `cipher_suite.decrypt(..).decode()` for the supplied passcode
(Fernet raises on a wrong key or malformed token, modelled by `.raise`);
`encrypt` is the corresponding `encrypt_data`. `now` is `datetime.now()` in
seconds; `refresh_post` is the parsed data of the refresh-grant POST
(`request_data` returns `None` as data when the call fails). -/
structure TdaEnv where
  fs : Option PickleFile
  decrypt : JVal → PyResult String
  encrypt : String → JVal
  now : Int
  refresh_post : JVal

/-- Embedding of `tda.authentication.get_pickle_path` restricted to its effect
on the cache file: `pickle_path.touch(exist_ok=True)` creates the file empty
when it is missing and leaves an existing file unchanged. -/
def get_pickle_path (fs : Option PickleFile) : PickleFile :=
  fs.getD .empty

/-- `pickle.load` on an opened cache file: a zero-byte file raises `EOFError`
("Ran out of input"). -/
def pickleLoad (pf : PickleFile) : PyResult JVal :=
  match pf with
  | .empty => .raise .eofError
  | .stored v => .ok v

/-- `timedelta(minutes=30)` in seconds. -/
def authorization_delta : Int := 1800

/-- `timedelta(days=60)` in seconds. -/
def refresh_delta : Int := 5184000

/-- Python `datetime` subtraction/comparison applied to a stored timestamp:
requires a number, `TypeError` otherwise. -/
def asTime (v : JVal) : PyResult Int :=
  match v with
  | .num n => .ok n
  | _ => .raise .typeError

/-- Decrypt one stored field: `decrypt_data(cipher_suite, pickle_data[k])`. -/
def decryptField (env : TdaEnv) (v : JVal) (k : String) : PyResult String :=
  match pyGetKey v k with
  | .raise e => .raise e
  | .ok w => env.decrypt w

/-- `update_pickle_file`: re-encrypt and dump the current tokens with a fresh
authorization timestamp (`refresh_timestamp` kept when supplied). -/
def update_pickle_file (env : TdaEnv) (access_token refresh_token client_id : String)
    (refresh_timestamp : Option Int) : PickleFile :=
  .stored (.obj [("authorization_token", env.encrypt access_token),
    ("refresh_token", env.encrypt refresh_token),
    ("client_id", env.encrypt client_id),
    ("authorization_timestamp", .num env.now),
    ("refresh_timestamp", .num (refresh_timestamp.getD env.now))])

/-- The shared tail of `tda.login`: install headers, set the login flag and
return the bearer token. -/
def tdaFinish (st : TdaState) (access_token client_id : String) :
    TdaState × PyResult String :=
  let tok := "Bearer " ++ access_token
  let st1 : TdaState := { st with headers := setHeader st.headers "Authorization" (.str tok) }
  let st2 : TdaState := { st1 with headers := setHeader st1.headers "apikey" (.str client_id) }
  ({ st2 with logged_in := true }, .ok tok)

/-- Embedding of `tda.authentication.login`. `get_pickle_path` touch-creates
the cache file, so the `open` can never raise `FileNotFoundError` and the
handler that would raise the "Please call login_first_time() ..."
`AuthenticationError` is unreachable; a never-initialized cache instead
surfaces as `pickle.load`'s `EOFError`. The result carries the final cache
file, the final session state, and the returned token or uncaught exception. -/
def tda_login (env : TdaEnv) (st : TdaState) :
    PickleFile × TdaState × PyResult String :=
  let pf := get_pickle_path env.fs
  match pickleLoad pf with
  | .raise .fileNotFound =>
      (pf, st, .raise (.authError "Please call login_first_time() to create pickle file."))
  | .raise e => (pf, st, .raise e)
  | .ok v =>
      match decryptField env v "authorization_token" with
      | .raise e => (pf, st, .raise e)
      | .ok access_token =>
      match decryptField env v "refresh_token" with
      | .raise e => (pf, st, .raise e)
      | .ok refresh_token =>
      match decryptField env v "client_id" with
      | .raise e => (pf, st, .raise e)
      | .ok client_id =>
      match pyGetKey v "authorization_timestamp" with
      | .raise e => (pf, st, .raise e)
      | .ok atsV =>
      match pyGetKey v "refresh_timestamp" with
      | .raise e => (pf, st, .raise e)
      | .ok rtsV =>
      match asTime rtsV with
      | .raise e => (pf, st, .raise e)
      | .ok rts =>
          if env.now - rts > refresh_delta then
            -- refresh token expired: obtain new refresh and authorization tokens
            match pyContainsD env.refresh_post "access_token" with
            | .raise e => (pf, st, .raise e)
            | .ok hasAcc =>
            match pyContainsD env.refresh_post "refresh_token" with
            | .raise e => (pf, st, .raise e)
            | .ok hasRef =>
                if ¬ (hasAcc ∧ hasRef) then
                  (pf, st, .raise (.authError "Refresh token is no longer valid. Call login_first_time() to get a new refresh token."))
                else
                  match pyGetKey env.refresh_post "access_token" with
                  | .raise e => (pf, st, .raise e)
                  | .ok accV =>
                  match pyGetKey env.refresh_post "refresh_token" with
                  | .raise e => (pf, st, .raise e)
                  | .ok refV =>
                      let pf2 := update_pickle_file env (pyStr accV) (pyStr refV) client_id none
                      let fin := tdaFinish st (pyStr accV) client_id
                      (pf2, fin.1, fin.2)
          else
            match asTime atsV with
            | .raise e => (pf, st, .raise e)
            | .ok ats =>
                if env.now - ats > authorization_delta then
                  -- authorization token expired: obtain a new one
                  match pyContainsD env.refresh_post "access_token" with
                  | .raise e => (pf, st, .raise e)
                  | .ok hasAcc =>
                      if ¬ hasAcc then
                        (pf, st, .raise (.authError "Refresh token is no longer valid. Call login_first_time() to get a new refresh token."))
                      else
                        match pyGetKey env.refresh_post "access_token" with
                        | .raise e => (pf, st, .raise e)
                        | .ok accV =>
                            let pf2 := update_pickle_file env (pyStr accV) refresh_token client_id (some rts)
                            let fin := tdaFinish st (pyStr accV) client_id
                            (pf2, fin.1, fin.2)
                else
                  let fin := tdaFinish st access_token client_id
                  (pf, fin.1, fin.2)

/-! ### Theorems -/

/-- First page of a two-page paginated response: a `results` list and a `next`
URL pointing at the second page. -/
def pageOneBody : JVal :=
  .obj [("results", .list [.obj [("id", .num 1)]]), ("next", .str "url2")]

/-- Second page: its own `results` and `next = null`. -/
def pageTwoBody : JVal :=
  .obj [("results", .list [.obj [("id", .num 2)]]), ("next", .null)]

/-- Network in which the first page points at a second, final page. -/
def twoPageNet : String → GetOutcome :=
  fun u => if u = "url2" then .ok pageTwoBody else .ok pageOneBody

/-- Network in which fetching the continuation page fails with an HTTP error. -/
def failSecondPageNet : String → GetOutcome :=
  fun u => if u = "url2" then .httpError else .ok pageOneBody

/-- C1: on a two-page paginated GET whose second page is final, `request_get`
with the `pagination` shape returns only the first page's `results` — not the
concatenation of both pages — because the loop `while 'next' in data and
data['next']` tests for `'next'` in the already-extracted results list instead
of in the page body, so the second page is never requested. -/
theorem pagination_drops_second_page :
    request_get twoPageNet "url1" "pagination" true
      = ⟨[], .ok (.data (.list [.obj [("id", .num 1)]]))⟩ ∧
    JVal.list [.obj [("id", .num 1)]]
      ≠ JVal.list [.obj [("id", .num 1)], .obj [("id", .num 2)]] := by
  refine ⟨rfl, ?_⟩
  intro h
  injection h with h1
  simp at h1

/-- C6: when the continuation page of a paginated GET would fail, `request_get`
returns the first page's results, but it does so without ever attempting the
continuation fetch and without logging the "additional pages" warning: the
output is identical to the all-pages-healthy run, and the log is empty. -/
theorem pagination_failure_no_warning :
    request_get failSecondPageNet "url1" "pagination" true
      = ⟨[], .ok (.data (.list [.obj [("id", .num 1)]]))⟩ ∧
    (request_get failSecondPageNet "url1" "pagination" true).log = [] ∧
    request_get failSecondPageNet "url1" "pagination" true
      = request_get twoPageNet "url1" "pagination" true := by
  exact ⟨rfl, rfl, rfl⟩

/-- C9: in the tda hardened variant, `login(passcode)` for a user who never ran
`login_first_time` raises `EOFError` (from `pickle.load` on the empty file that
`get_pickle_path` touch-created), not the distinguishable
"Please call login_first_time() ..." `AuthenticationError`: the
`FileNotFoundError` handler guarding that message is unreachable. -/
theorem tda_login_never_setup (st : TdaState) (d : JVal → PyResult String)
    (e : String → JVal) (now : Int) (rp : JVal) :
    (tda_login ⟨none, d, e, now, rp⟩ st).2.2 = .raise .eofError ∧
    PyResult.raise (α := String) .eofError
      ≠ .raise (.authError "Please call login_first_time() to create pickle file.") := by
  refine ⟨rfl, ?_⟩
  intro h
  injection h with h1
  cases h1

/-- C2 counterexample: a list-shape GET whose HTTP call fails with a 4xx/5xx
status returns the one-element sentinel list `[None]`, not the empty list the
claim promises. -/
theorem request_failure_list_sentinel_cex :
    (request_get (fun _ => GetOutcome.httpError) "url" "results" true).result
      = .ok (.data (.list [.null])) ∧
    JVal.list [.null] ≠ JVal.list [] := by
  refine ⟨rfl, ?_⟩
  intro h
  injection h with h1
  simp at h1

/-- C2 (amended): a data-access dispatch whose HTTP call fails with a 4xx/5xx
status does not raise: it logs the error and returns `None` for the
single-object and first-of-list shapes and the sentinel `[None]` for the list
shapes; POST and DELETE additionally swallow transport errors the same way,
while a transport error on a GET propagates out of `request_get`. -/
theorem request_failure_empty_shapes (net net2 : String → GetOutcome)
    (url dt : String) (hN : net url = GetOutcome.httpError)
    (hN2 : net2 url = GetOutcome.connectionError) :
    request_get net url dt true
      = ⟨[.printedErr .httpError], .ok (.data
          (if dt = "results" ∨ dt = "pagination" then .list [.null] else .null))⟩ ∧
    (∀ (o : PostOutcome) (js jd : Bool) (h0 : Headers),
        (o = .httpError ∨ o = .connectionError) →
        (request_post o js jd h0).result = .ok (.data .null) ∧
        (request_post o js jd h0).log = [.postError]) ∧
    (∀ d : DeleteOutcome, (d = .httpError ∨ d = .connectionError) →
        request_delete d = ([.deleteError], .ok (.data .null))) ∧
    (request_get net2 url dt true).result = .raise .connectionError := by
  refine ⟨?_, ?_, ?_, ?_⟩
  · simp only [request_get, hN]
  · rintro o js jd h0 (rfl | rfl) <;> exact ⟨rfl, rfl⟩
  · rintro d (rfl | rfl) <;> rfl
  · simp only [request_get, hN2]

/-- Witness for the amended C2 theorem at a concrete network. -/
theorem request_failure_empty_shapes_witness :
    (fun (_ : String) => GetOutcome.httpError) "url" = GetOutcome.httpError ∧
    (fun (_ : String) => GetOutcome.connectionError) "url" = GetOutcome.connectionError ∧
    request_get (fun _ => GetOutcome.httpError) "url" "results" true
      = ⟨[.printedErr .httpError], .ok (.data
          (if ("results" : String) = "results" ∨ ("results" : String) = "pagination"
            then .list [.null] else .null))⟩ :=
  ⟨rfl, rfl,
    (request_failure_empty_shapes (fun _ => GetOutcome.httpError)
      (fun _ => GetOutcome.connectionError) "url" "results" rfl rfl).1⟩

/-- C10: with the `indexzero` shape, a body whose `results` is a non-empty
list yields that list's first element; a body without `results` yields the
empty object (first element of the `[{}]` default); and a body whose `results`
is present but empty makes the `[0]` index raise `IndexError` instead of
yielding the empty object. -/
theorem indexzero_shape_spec (fs : List (String × JVal)) (url : String)
    (v : JVal) (rest : List JVal) :
    (dictLookup fs "results" = some (.list (v :: rest)) →
      request_get (fun _ => GetOutcome.ok (.obj fs)) url "indexzero" true
        = ⟨[], .ok (.data v)⟩) ∧
    (dictLookup fs "results" = none →
      request_get (fun _ => GetOutcome.ok (.obj fs)) url "indexzero" true
        = ⟨[], .ok (.data (.obj []))⟩) ∧
    (dictLookup fs "results" = some (.list []) →
      request_get (fun _ => GetOutcome.ok (.obj fs)) url "indexzero" true
        = ⟨[], .raise .indexError⟩) := by
  refine ⟨fun h => ?_, fun h => ?_, fun h => ?_⟩ <;>
    simp [request_get, dictGet, h, pyIndexZero]

/-- Witness for the C10 theorem at concrete bodies. -/
theorem indexzero_shape_spec_witness :
    (dictLookup [("results", JVal.list [.num 7])] "results"
        = some (.list (JVal.num 7 :: [])) ∧
      request_get (fun _ => GetOutcome.ok (.obj [("results", JVal.list [.num 7])]))
          "u" "indexzero" true = ⟨[], .ok (.data (.num 7))⟩) ∧
    (dictLookup [("other", JVal.num 0)] "results" = none ∧
      request_get (fun _ => GetOutcome.ok (.obj [("other", JVal.num 0)]))
          "u" "indexzero" true = ⟨[], .ok (.data (.obj []))⟩) ∧
    (dictLookup [("results", JVal.list [])] "results" = some (.list []) ∧
      request_get (fun _ => GetOutcome.ok (.obj [("results", JVal.list [])]))
          "u" "indexzero" true = ⟨[], .raise .indexError⟩) :=
  ⟨⟨rfl, (indexzero_shape_spec [("results", JVal.list [.num 7])] "u" (.num 7) []).1 rfl⟩,
    ⟨rfl, (indexzero_shape_spec [("other", JVal.num 0)] "u" .null []).2.1 rfl⟩,
    ⟨rfl, (indexzero_shape_spec [("results", JVal.list [])] "u" .null []).2.2 rfl⟩⟩

/-- C7: after a JSON-mode `request_post`, whatever the outcome (success, 4xx/5xx,
transport failure, or JSON-decode failure), the session's `Content-Type` equals
the form-encoded default, every other header is untouched, and when the pre-call
`Content-Type` already was the default the whole header map is unchanged. -/
theorem post_content_type_restore (outcome : PostOutcome) (jsonify : Bool)
    (h0 : Headers) (hpre : h0 "Content-Type" = some (.str formDefault)) :
    (request_post outcome true jsonify h0).headers "Content-Type"
        = some (.str formDefault) ∧
    (∀ k, k ≠ "Content-Type" →
        (request_post outcome true jsonify h0).headers k = h0 k) ∧
    (request_post outcome true jsonify h0).headers = h0 := by
  refine ⟨?_, fun k hk => ?_, funext fun k => ?_⟩
  · simp [request_post, setHeader]
  · simp [request_post, setHeader, hk]
  · by_cases hk : k = "Content-Type"
    · subst hk; simp [request_post, setHeader, hpre]
    · simp [request_post, setHeader, hk]

/-- Witness for the C7 theorem at a concrete header map and a failing POST. -/
theorem post_content_type_restore_witness :
    (fun k => if k = "Content-Type" then some (JVal.str formDefault) else none :
        Headers) "Content-Type" = some (.str formDefault) ∧
    (request_post .httpError true true
        (fun k => if k = "Content-Type" then some (JVal.str formDefault) else none)).headers
      = (fun k => if k = "Content-Type" then some (JVal.str formDefault) else none) :=
  ⟨rfl, (post_content_type_restore .httpError true
    (fun k => if k = "Content-Type" then some (JVal.str formDefault) else none) rfl).2.2⟩

/-- Statement-side helper for C5: the projection of field `k` from every
element of a list, defined when every element is an object carrying `k`. -/
def projAll (k : String) : List JVal → Option (List JVal)
  | [] => some []
  | .obj fs :: ys =>
      match dictLookup fs k, projAll k ys with
      | some v, some vs => some (v :: vs)
      | _, _ => none
  | _ :: _ => none

/-- A total projection is exactly a successful run of the source's list
comprehension. -/
theorem projAll_mapGetKey (k : String) :
    ∀ (ys vs : List JVal), projAll k ys = some vs → mapGetKey k ys = .ok vs := by
  intro ys
  induction ys with
  | nil => intro vs h; simp [projAll] at h; subst h; rfl
  | cons y ys ih =>
      intro vs h
      cases y with
      | obj fs =>
          cases hl : dictLookup fs k with
          | none => simp [projAll, hl] at h
          | some v0 =>
              cases hp : projAll k ys with
              | none => simp [projAll, hl, hp] at h
              | some vs0 =>
                  simp [projAll, hl, hp] at h
                  subst h
                  simp [mapGetKey, pyGetKey, hl, ih vs0 hp]
      | null => simp [projAll] at h
      | bool b => simp [projAll] at h
      | num n => simp [projAll] at h
      | str s => simp [projAll] at h
      | list zs => simp [projAll] at h

/-- C5: `filter_data` projects field `k` from every element of a list whose
elements all carry `k`; returns the field's value on a single object carrying
it; logs and returns `[]` (for a list) or `None` (for an object) when the field
is absent from the representative element; returns non-sentinel data unchanged
when no field name is given; and maps the `[None]` sentinel to `[]`. -/
theorem filter_data_spec (k : String) :
    (∀ (x : JVal) (xs vs : List JVal), projAll k (x :: xs) = some vs →
        filter_data (.list (x :: xs)) (some k) = ([], .ok (.list vs))) ∧
    (∀ (fs : List (String × JVal)) (v : JVal), dictLookup fs k = some v →
        filter_data (.obj fs) (some k) = ([], .ok v)) ∧
    (∀ (fs0 : List (String × JVal)) (ys : List JVal), dictLookup fs0 k = none →
        filter_data (.list (.obj fs0 :: ys)) (some k)
          = ([.keyNotFound k], .ok (.list []))) ∧
    (∀ fs : List (String × JVal), dictLookup fs k = none →
        filter_data (.obj fs) (some k) = ([.keyNotFound k], .ok .null)) ∧
    (∀ d : JVal, d ≠ .list [.null] → filter_data d none = ([], .ok d)) ∧
    (∀ i : Option String, filter_data (.list [.null]) i = ([], .ok (.list []))) := by
  refine ⟨?_, ?_, ?_, ?_, ?_, ?_⟩
  · intro x xs vs hproj
    cases x with
    | obj fs0 =>
        cases hl : dictLookup fs0 k with
        | none => simp [projAll, hl] at hproj
        | some v0 =>
            cases hp : projAll k xs with
            | none => simp [projAll, hl, hp] at hproj
            | some vs0 =>
                simp [projAll, hl, hp] at hproj
                subst hproj
                have hm := projAll_mapGetKey k (.obj fs0 :: xs) (v0 :: vs0)
                  (by simp [projAll, hl, hp])
                simp [filter_data, pyContainsD, hl, hm]
    | null => simp [projAll] at hproj
    | bool b => simp [projAll] at hproj
    | num n => simp [projAll] at hproj
    | str s => simp [projAll] at hproj
    | list zs => simp [projAll] at hproj
  · intro fs v hl
    simp [filter_data, pyGetKey, hl]
  · intro fs0 ys hl
    simp [filter_data, pyContainsD, hl]
  · intro fs hl
    simp [filter_data, hl]
  · intro d hd
    cases d with
    | list xs =>
        rcases xs with _ | ⟨x, xs2⟩
        · rfl
        · cases x <;> rcases xs2 with _ | ⟨y, ys⟩ <;>
            first
              | rfl
              | exact absurd rfl hd
    | null => rfl
    | bool b => rfl
    | num n => rfl
    | str s => rfl
    | obj fs => rfl
  · intro i; rfl

/-- Witness for the C5 theorem: the spec's own examples
`filter([{a:1},{a:2}], a) = [1,2]`, `filter({a:1}, a) = 1` and
`filter({}, missing) = null`, plus the sentinel and no-field cases. -/
theorem filter_data_spec_witness :
    (projAll "a" (JVal.obj [("a", .num 1)] :: [JVal.obj [("a", .num 2)]])
        = some [JVal.num 1, JVal.num 2] ∧
      filter_data (.list [.obj [("a", .num 1)], .obj [("a", .num 2)]]) (some "a")
        = ([], .ok (.list [.num 1, .num 2]))) ∧
    (dictLookup [("a", JVal.num 1)] "a" = some (.num 1) ∧
      filter_data (.obj [("a", .num 1)]) (some "a") = ([], .ok (.num 1))) ∧
    (dictLookup ([] : List (String × JVal)) "missing" = none ∧
      filter_data (.obj []) (some "missing") = ([.keyNotFound "missing"], .ok .null)) ∧
    (JVal.num 3 ≠ .list [.null] ∧ filter_data (.num 3) none = ([], .ok (.num 3))) ∧
    filter_data (.list [.null]) (some "a") = ([], .ok (.list [])) :=
  ⟨⟨rfl, (filter_data_spec "a").1 (.obj [("a", .num 1)]) [JVal.obj [("a", .num 2)]]
      [JVal.num 1, JVal.num 2] rfl⟩,
    ⟨rfl, (filter_data_spec "a").2.1 [("a", JVal.num 1)] (.num 1) rfl⟩,
    ⟨rfl, (filter_data_spec "missing").2.2.2.1 [] rfl⟩,
    ⟨fun h => JVal.noConfusion h, (filter_data_spec "a").2.2.2.2.1 (.num 3)
      (fun h => JVal.noConfusion h)⟩,
    (filter_data_spec "a").2.2.2.2.2 (some "a")⟩

/-- C8: `logout()` with falsy `_SESSION_DATA` (the `LOGGED_OUT` state) raises
the not-logged-in error and returns the state unchanged; with a live session it
returns `None`, clears `_SESSION_DATA`, lowers the logged-in flag, sets the
`Authorization` header to `None`, leaves every other header alone, and leaves
the on-disk credential cache untouched. -/
theorem logout_spec (st : RHState) :
    (pyTruthy st.session_data = false →
      logout st = (st, .raise (.exc "You must be logged in to use this function"))) ∧
    (pyTruthy st.session_data = true →
      (logout st).2 = .ok .null ∧
      (logout st).1.session_data = .obj [] ∧
      (logout st).1.logged_in = false ∧
      (logout st).1.headers "Authorization" = some .null ∧
      (logout st).1.cache_file = st.cache_file ∧
      ∀ k, k ≠ "Authorization" → (logout st).1.headers k = st.headers k) := by
  constructor
  · intro h
    simp [logout, h]
  · intro h
    refine ⟨?_, ?_, ?_, ?_, ?_, fun k hk => ?_⟩
    · simp [logout, h]
    · simp [logout, h, update_session]
    · simp [logout, h, update_session]
    · simp [logout, h, update_session, setHeader]
    · simp [logout, h, update_session]
    · simp [logout, h, update_session, setHeader, hk]

/-- Witness for the C8 theorem: a logged-out and a logged-in concrete state. -/
theorem logout_spec_witness :
    (pyTruthy (RHState.mk (fun _ => none) false (.obj []) none).session_data = false ∧
      logout ⟨fun _ => none, false, .obj [], none⟩
        = (⟨fun _ => none, false, .obj [], none⟩,
            .raise (.exc "You must be logged in to use this function"))) ∧
    (pyTruthy (RHState.mk (fun _ => none) true
        (.obj [("access_token", .str "t")]) (some (some (.obj [])))).session_data = true ∧
      (logout ⟨fun _ => none, true, .obj [("access_token", .str "t")],
          some (some (.obj []))⟩).1.cache_file = some (some (.obj []))) :=
  ⟨⟨rfl, (logout_spec ⟨fun _ => none, false, .obj [], none⟩).1 rfl⟩,
    ⟨rfl, ((logout_spec ⟨fun _ => none, true, .obj [("access_token", .str "t")],
        some (some (.obj []))⟩).2 rfl).2.2.2.2.1⟩⟩

/-- C3: with session reuse requested, a truthy cached bundle on disk and a
succeeding liveness probe, `login()` consumes no interactive input, raises the
logged-in flag, installs `token_type access_token` from the cache in the
session's `Authorization` header, keeps the cached bundle as the session data,
and returns the bundle annotated as logged in via the cache file. -/
theorem login_cached_success (env : LoginEnv) (st : RHState)
    (fs : List (String × JVal)) (tt at2 b : JVal)
    (username password mfa_code : Option String) (pickle_name : String)
    (hcache : st.cache_file = some (some (.obj fs)))
    (htruthy : pyTruthy (.obj fs) = true)
    (htt : dictLookup fs "token_type" = some tt)
    (hat : dictLookup fs "access_token" = some at2)
    (hprobe : env.probe = GetOutcome.ok b) :
    (login env st username password mfa_code true pickle_name).prompts = 0 ∧
    (login env st username password mfa_code true pickle_name).result
      = .ok (.obj (dictSet fs "detail" (.str ("Logged in using cached authentication in "
          ++ ("robinhood" ++ pickle_name ++ ".pickle"))))) ∧
    (login env st username password mfa_code true pickle_name).state.logged_in = true ∧
    (login env st username password mfa_code true pickle_name).state.headers "Authorization"
      = some (.str (pyStr tt ++ " " ++ pyStr at2)) ∧
    (login env st username password mfa_code true pickle_name).state.session_data
      = .obj fs := by
  refine ⟨?_, ?_, ?_, ?_, ?_⟩ <;>
    simp [login, hcache, htruthy, pyGetKey, htt, hat, request_get, hprobe,
      update_session, setHeader]

/-- Witness for the C3 theorem at a concrete cached bundle and environment. -/
theorem login_cached_success_witness :
    (RHState.mk (fun _ => none) false (.obj [])
        (some (some (.obj [("token_type", .str "Bearer"), ("access_token", .str "tok")])))).cache_file
      = some (some (.obj [("token_type", .str "Bearer"), ("access_token", .str "tok")])) ∧
    pyTruthy (.obj [("token_type", .str "Bearer"), ("access_token", .str "tok")]) = true ∧
    (login ⟨.ok (.obj []), .httpError, fun _ => .failed, fun _ => .httpError, .httpError,
        "dev", []⟩
      ⟨fun _ => none, false, .obj [],
        some (some (.obj [("token_type", .str "Bearer"), ("access_token", .str "tok")]))⟩
      none none none true "").prompts = 0 :=
  ⟨rfl, rfl,
    (login_cached_success
      ⟨.ok (.obj []), .httpError, fun _ => .failed, fun _ => .httpError, .httpError, "dev", []⟩
      ⟨fun _ => none, false, .obj [],
        some (some (.obj [("token_type", .str "Bearer"), ("access_token", .str "tok")]))⟩
      [("token_type", .str "Bearer"), ("access_token", .str "tok")]
      (.str "Bearer") (.str "tok") (.obj [])
      none none none "" rfl rfl rfl rfl rfl).1⟩

/-- Two-step key path `v[k1][k2]`. -/
def pyGetPath2 (v : JVal) (k1 k2 : String) : PyResult JVal :=
  match pyGetKey v k1 with
  | .raise e => .raise e
  | .ok w => pyGetKey w k2

/-- The challenge endpoint's answer to one submission is a failed attempt
reporting `n` remaining tries: the response carries a `challenge` key and
`res['challenge']['remaining_attempts']` is the number `n`. -/
def failedChallengeWith (o : PostOutcome) (n : Int) : Prop :=
  pyContainsD (postValue o) "challenge" = .ok true ∧
  pyGetPath2 (postValue o) "challenge" "remaining_attempts" = .ok (.num n)

/-- Index-generalized form of the challenge-exhaustion property, inducting on
the number of failed attempts that still have tries remaining. -/
theorem handle_challenge_exhaust_aux (k : Nat) :
    ∀ (i : Nat) (posts : Nat → PostOutcome) (final : PostOutcome) (cid : JVal)
      (st : RHState) (inputs : List String),
      k < inputs.length →
      (∀ j, j < k → ∃ n : Int, 0 < n ∧ failedChallengeWith (posts (i + j)) n) →
      failedChallengeWith (posts (i + k)) 0 →
      (handle_challenge posts final cid st inputs i).result
          = .raise (.exc "Too many failed challenge attempts") ∧
      (handle_challenge posts final cid st inputs i).prompts = k + 1 := by
  induction k with
  | zero =>
      intro i posts final cid st inputs hlen _ hzero
      rcases inputs with _ | ⟨c, rest⟩
      · simp at hlen
      · obtain ⟨hc, hr⟩ := hzero
        rcases hek : pyGetKey (postValue (posts (i + 0))) "challenge" with chal | e
        · simp only [pyGetPath2, hek] at hr
          simp only [Nat.add_zero] at hc hek
          constructor <;> simp [handle_challenge, hc, hek, hr, pyLeZero]
        · simp only [pyGetPath2, hek] at hr
          exact absurd hr (by simp)
  | succ k ih =>
      intro i posts final cid st inputs hlen hpos hzero
      rcases inputs with _ | ⟨c, rest⟩
      · simp at hlen
      · obtain ⟨n, hn, hc0, hr0⟩ := hpos 0 (Nat.succ_pos k)
        rcases hek : pyGetKey (postValue (posts (i + 0))) "challenge" with chal | e
        · simp only [pyGetPath2, hek] at hr0
          simp only [Nat.add_zero] at hc0 hek
          have hd : decide (n ≤ 0) = false := decide_eq_false (not_le.mpr hn)
          have hrec := ih (i + 1) posts final cid
            { st with headers := (request_post (posts i) false true st.headers).headers }
            rest (Nat.lt_of_succ_lt_succ hlen)
            (fun j hj => by
              have := hpos (j + 1) (Nat.succ_lt_succ hj)
              have hidx : i + (j + 1) = i + 1 + j := by omega
              rwa [hidx] at this)
            (by
              have hidx : i + (k + 1) = i + 1 + k := by omega
              rwa [hidx] at hzero)
          constructor <;>
            simp [handle_challenge, hc0, hek, hr0, pyLeZero, hd, hrec.1, hrec.2]
        · simp only [pyGetPath2, hek] at hr0
          exact absurd hr0 (by simp)

/-- C4: during the challenge loop, after `k` failed submissions each reporting
a positive `remaining_attempts` and a `(k+1)`-th failed submission reporting
zero remaining, `_handle_challenge` raises "Too many failed challenge attempts"
having consumed exactly `k + 1` interactive codes — it prompts again after each
positive report and never prompts after the zero report. -/
theorem challenge_exhaustion (k : Nat) (posts : Nat → PostOutcome)
    (final : PostOutcome) (cid : JVal) (st : RHState) (inputs : List String)
    (hlen : k < inputs.length)
    (hpos : ∀ j, j < k → ∃ n : Int, 0 < n ∧ failedChallengeWith (posts j) n)
    (hzero : failedChallengeWith (posts k) 0) :
    (handle_challenge posts final cid st inputs 0).result
        = .raise (.exc "Too many failed challenge attempts") ∧
    (handle_challenge posts final cid st inputs 0).prompts = k + 1 :=
  handle_challenge_exhaust_aux k 0 posts final cid st inputs hlen
    (by simpa using hpos) (by simpa using hzero)

/-- A failed challenge answer with one attempt remaining. -/
def chalPosResp : JVal := .obj [("challenge", .obj [("remaining_attempts", .num 1)])]

/-- A failed challenge answer with no attempts remaining. -/
def chalZeroResp : JVal := .obj [("challenge", .obj [("remaining_attempts", .num 0)])]

/-- Challenge endpoint that fails the first attempt with one try left and the
second with zero. -/
def chalPosts : Nat → PostOutcome :=
  fun j => if j = 0 then .ok chalPosResp else .ok chalZeroResp

/-- Fresh process state: default-header session, logged out, empty
`_SESSION_DATA`, no cache file. -/
def stInit : RHState := ⟨fun _ => none, false, .obj [], none⟩

/-- Witness for the C4 theorem: two failed submissions, the second reporting
zero remaining attempts. -/
theorem challenge_exhaustion_witness :
    1 < (["111111", "222222"] : List String).length ∧
    failedChallengeWith (chalPosts 1) 0 ∧
    (handle_challenge chalPosts .httpError .null stInit ["111111", "222222"] 0).result
        = .raise (.exc "Too many failed challenge attempts") ∧
    (handle_challenge chalPosts .httpError .null stInit ["111111", "222222"] 0).prompts
        = 1 + 1 := by
  have h := challenge_exhaustion 1 chalPosts .httpError .null stInit
    ["111111", "222222"] (by norm_num)
    (fun j hj => by
      have hj0 : j = 0 := by omega
      subst hj0
      exact ⟨1, by norm_num, rfl, rfl⟩)
    ⟨rfl, rfl⟩
  exact ⟨by norm_num, ⟨rfl, rfl⟩, h.1, h.2⟩

end RobinStocks
